import Mathlib

/-!
Shallow embedding of the GoClean aggregate-root / domain-event / soft-delete
core (Go sources under internal/domain), together with theorems settling the
spec claims about it.

Conventions of the embedding:
* `uuid.UUID` and `time.Time` are modelled as `Nat`; each call of `uuid.New()`
  or `time.Now()` inside one Go function is passed in as an explicit parameter
  (`freshId`, `now`).
* A Go `error` is `Option String` (`none` = nil error, `some msg` =
  `errors.New msg`).
* Go functions returning `(*T, error)` where the service code may observe any
  combination of the two results are modelled as `Option T × Option String`
  (GetByEmail / GetByUsername); lookups whose results the service immediately
  dereferences after a nil-error check are modelled as `Except String T`
  (GetByID / GetByIDIncludeDeleted), matching the gorm implementation which
  returns exactly one of pointer / error.
* Pointer mutation is modelled by returning the updated value.
* Calls into the persistence layer and into the dispatcher are additionally
  recorded in an effect trace (`SvcOp`), so that ordering and absence of
  calls is provable.
-/

/-- DomainEvent variants of the User aggregate (entities.UserCreatedEvent and
entities.UserDeletedEvent from internal/domain/entities); the event set is
closed, dispatch is type-based. -/
inductive DomainEvent where
  | userCreated (UserID : Nat) (Email : String) (Username : String) (OccurredAt : Nat)
  | userDeleted (UserID : Nat) (OccurredAt : Nat)
deriving DecidableEq, Repr

/-- EventType of entities.UserCreatedEvent / entities.UserDeletedEvent. -/
def DomainEvent.EventType : DomainEvent → String
  | .userCreated _ _ _ _ => "UserCreated"
  | .userDeleted _ _ => "UserDeleted"

/-- OccurredOn of the event. -/
def DomainEvent.OccurredOn : DomainEvent → Nat
  | .userCreated _ _ _ t => t
  | .userDeleted _ t => t

/-- AggregateRoot: the per-instance buffer of pending domain events
(entities.AggregateRoot). -/
structure AggregateRoot where
  domainEvents : List DomainEvent
deriving DecidableEq, Repr

/-- AddDomainEvent appends an event to the buffer (entities.AggregateRoot.AddDomainEvent). -/
def AggregateRoot.AddDomainEvent (ar : AggregateRoot) (event : DomainEvent) : AggregateRoot :=
  { ar with domainEvents := ar.domainEvents ++ [event] }

/-- DomainEvents returns the buffered events (entities.AggregateRoot.DomainEvents). -/
def AggregateRoot.DomainEvents (ar : AggregateRoot) : List DomainEvent :=
  ar.domainEvents

/-- ClearDomainEvents empties the buffer (entities.AggregateRoot.ClearDomainEvents,
which sets the slice to nil). -/
def AggregateRoot.ClearDomainEvents (_ : AggregateRoot) : AggregateRoot :=
  { domainEvents := [] }

/-- BaseEntity: identity, timestamps and the soft-delete field
(entities.BaseEntity). `DeletedAt = none` means active. -/
structure BaseEntity where
  ID : Nat
  CreatedAt : Nat
  UpdatedAt : Nat
  DeletedAt : Option Nat
deriving DecidableEq, Repr

/-- IsDeleted: `DeletedAt != nil` (entities.BaseEntity.IsDeleted). -/
def BaseEntity.IsDeleted (be : BaseEntity) : Bool :=
  be.DeletedAt ≠ none

/-- SoftDelete sets `DeletedAt` to the current time, unconditionally
(entities.BaseEntity.SoftDelete). -/
def BaseEntity.SoftDelete (be : BaseEntity) (now : Nat) : BaseEntity :=
  { be with DeletedAt := some now }

/-- Restore clears `DeletedAt`, unconditionally (entities.BaseEntity.Restore). -/
def BaseEntity.Restore (be : BaseEntity) : BaseEntity :=
  { be with DeletedAt := none }

/-- Profile: child entity of the User aggregate (entities.Profile). -/
structure Profile where
  base : BaseEntity
  UserID : Nat
  Bio : String
  Avatar : String
  DateOfBirth : Option Nat
deriving DecidableEq, Repr

/-- User aggregate root (entities.User); `base` and `root` are the embedded
BaseEntity and AggregateRoot. -/
structure User where
  base : BaseEntity
  root : AggregateRoot
  Email : String
  Username : String
  FirstName : String
  LastName : String
  IsActive : Bool
  Profile : Option Profile
deriving DecidableEq, Repr

/-- Promoted BaseEntity.IsDeleted on User. -/
def User.IsDeleted (u : User) : Bool :=
  u.base.IsDeleted

/-- Promoted BaseEntity.SoftDelete on User. -/
def User.SoftDelete (u : User) (now : Nat) : User :=
  { u with base := u.base.SoftDelete now }

/-- Promoted BaseEntity.Restore on User. -/
def User.Restore (u : User) : User :=
  { u with base := u.base.Restore }

/-- Promoted AggregateRoot.AddDomainEvent on User. -/
def User.AddDomainEvent (u : User) (event : DomainEvent) : User :=
  { u with root := u.root.AddDomainEvent event }

/-- NewUser factory (entities.NewUser): fresh id, timestamps set, `DeletedAt`
nil, `IsActive` true, one UserCreatedEvent appended. It is a pure constructor:
it takes no repository and performs no persistence call. -/
def NewUser (freshId now : Nat) (email username firstName lastName : String) : User :=
  let user : User :=
    { base := { ID := freshId, CreatedAt := now, UpdatedAt := now, DeletedAt := none }
      root := { domainEvents := [] }
      Email := email
      Username := username
      FirstName := firstName
      LastName := lastName
      IsActive := true
      Profile := none }
  user.AddDomainEvent (DomainEvent.userCreated user.base.ID user.Email user.Username now)

/-- Delete (entities.User.Delete): SoftDelete, clear IsActive, append one
UserDeletedEvent. The Go method has no error result and does not touch
`u.Profile`. -/
def User.Delete (u : User) (now : Nat) : User :=
  let u := u.SoftDelete now
  let u := { u with IsActive := false }
  u.AddDomainEvent (DomainEvent.userDeleted u.base.ID now)

/-- DomainEventHandler interface (events.DomainEventHandler): `Handle` returns
`none` on success and `some err` on error. -/
structure DomainEventHandler where
  CanHandle : DomainEvent → Bool
  Handle : DomainEvent → Option String

/-- DomainEventDispatcher (events.DomainEventDispatcher): registered handlers in
registration order and an optional external publisher. -/
structure DomainEventDispatcher where
  handlers : List DomainEventHandler
  publisher : Option (List DomainEvent → Option String)

/-- Inner loop of DispatchEvents for one event: walk the handlers in order,
invoke `Handle` on each handler whose `CanHandle` is true, stop at the first
error. -/
def handleEventLocally (handlers : List DomainEventHandler) (event : DomainEvent) :
    Option String :=
  match handlers with
  | [] => none
  | h :: rest =>
    if h.CanHandle event then
      match h.Handle event with
      | some err => some err
      | none => handleEventLocally rest event
    else
      handleEventLocally rest event

/-- Outer loop of DispatchEvents: handle each buffered event in order, stop at
the first handler error. -/
def handleEventsLocally (handlers : List DomainEventHandler) (events : List DomainEvent) :
    Option String :=
  match events with
  | [] => none
  | e :: rest =>
    match handleEventLocally handlers e with
    | some err => some err
    | none => handleEventsLocally handlers rest

/-- DispatchEvents (events.DomainEventDispatcher.DispatchEvents). Returns the
Go error, the aggregate root after the call (the Go code mutates it through the
pointer: cleared exactly when dispatch succeeded), and the list of batches that
were handed to the publisher's Publish (empty when Publish was never invoked). -/
def DomainEventDispatcher.DispatchEvents (d : DomainEventDispatcher) (ar : AggregateRoot) :
    Option String × AggregateRoot × List (List DomainEvent) :=
  let events := ar.DomainEvents
  if events.length = 0 then
    (none, ar, [])
  else
    match handleEventsLocally d.handlers events with
    | some err => (some err, ar, [])
    | none =>
      match d.publisher with
      | none => (none, ar.ClearDomainEvents, [])
      | some pub =>
        match pub events with
        | some err => (some err, ar, [events])
        | none => (none, ar.ClearDomainEvents, [events])

/-- UserRepository boundary (repositories.UserRepository), restricted to the
operations the aggregate service uses. GetByEmail / GetByUsername keep the raw
Go `(*User, error)` pair because the service inspects both components;
GetByID / GetByIDIncludeDeleted return `Except` because the gorm implementation
returns exactly one of user / error and the service dereferences the user after
a nil-error check. GetByID is the active-only lookup (its gorm implementation
is documented "excludes soft deleted"); GetByIDIncludeDeleted is unscoped. -/
structure UserRepository where
  GetByEmail : String → Option User × Option String
  GetByUsername : String → Option User × Option String
  GetByID : Nat → Except String User
  GetByIDIncludeDeleted : Nat → Except String User
  Create : User → Option String
  Update : User → Option String

/-- Observable side effect of one service run: a persistence write or the hand
of an event batch to the dispatcher. -/
inductive SvcOp where
  | repoCreate (u : User)
  | repoUpdate (u : User)
  | dispatch (events : List DomainEvent)
deriving DecidableEq, Repr

/-- UserAggregateService (services.UserAggregateService); the logger and the
profile repository play no part in the modelled operations. -/
structure UserAggregateService where
  userRepo : UserRepository
  eventDispatcher : DomainEventDispatcher

/-- Result of a service operation returning `(*User, error)` in Go, plus the
effect trace. -/
structure SvcResult where
  val : Option User
  err : Option String
  trace : List SvcOp
deriving DecidableEq, Repr

/-- Result of a service operation returning only `error` in Go, plus the
effect trace. -/
structure OpResult where
  err : Option String
  trace : List SvcOp
deriving DecidableEq, Repr

/-- validateUserBusinessRules (services.UserAggregateService.validateUserBusinessRules):
a duplicate is reported exactly when the lookup returns `err == nil &&
existingUser != nil`; any other combination falls through. -/
def validateUserBusinessRules (repo : UserRepository) (user : User) : Option String :=
  match repo.GetByEmail user.Email with
  | (some _, none) => some "email already exists"
  | _ =>
    match repo.GetByUsername user.Username with
    | (some _, none) => some "username already exists"
    | _ => none

/-- validateUserDeletionRules (services.UserAggregateService.validateUserDeletionRules). -/
def validateUserDeletionRules (user : User) : Option String :=
  if user.IsDeleted then some "user is already deleted" else none

/-- CreateUser (services.UserAggregateService.CreateUser): construct via
NewUser, validate business rules, persist, then dispatch. A dispatch error is
only logged: the method still returns the user and a nil error; the user it
returns carries the post-dispatch buffer (the dispatcher mutates the aggregate
root through the pointer). -/
def UserAggregateService.CreateUser (s : UserAggregateService) (freshId now : Nat)
    (email username firstName lastName : String) : SvcResult :=
  let user := NewUser freshId now email username firstName lastName
  match validateUserBusinessRules s.userRepo user with
  | some err => { val := none, err := some err, trace := [] }
  | none =>
    match s.userRepo.Create user with
    | some err => { val := none, err := some err, trace := [SvcOp.repoCreate user] }
    | none =>
      let r := s.eventDispatcher.DispatchEvents user.root
      { val := some { user with root := r.2.1 }
        err := none
        trace := [SvcOp.repoCreate user, SvcOp.dispatch user.root.domainEvents] }

/-- SoftDeleteUser (services.UserAggregateService.SoftDeleteUser): load through
the active-only GetByID, validate the deletion rules, mutate via User.Delete,
persist via Update, then dispatch. A dispatch error is only logged: the method
returns nil. -/
def UserAggregateService.SoftDeleteUser (s : UserAggregateService) (now : Nat)
    (userID : Nat) : OpResult :=
  match s.userRepo.GetByID userID with
  | .error err => { err := some err, trace := [] }
  | .ok user =>
    match validateUserDeletionRules user with
    | some err => { err := some err, trace := [] }
    | none =>
      let user := user.Delete now
      match s.userRepo.Update user with
      | some err => { err := some err, trace := [SvcOp.repoUpdate user] }
      | none =>
        let _ := s.eventDispatcher.DispatchEvents user.root
        { err := none, trace := [SvcOp.repoUpdate user, SvcOp.dispatch user.root.domainEvents] }

/-- RestoreUser (services.UserAggregateService.RestoreUser): load through the
unscoped GetByIDIncludeDeleted, reject with "user is not deleted" when the user
is not currently deleted, otherwise Restore, set IsActive, persist via Update.
No dispatcher call occurs in this method. -/
def UserAggregateService.RestoreUser (s : UserAggregateService) (userID : Nat) : OpResult :=
  match s.userRepo.GetByIDIncludeDeleted userID with
  | .error err => { err := some err, trace := [] }
  | .ok user =>
    if ¬ user.IsDeleted then
      { err := some "user is not deleted", trace := [] }
    else
      let user := { user.Restore with IsActive := true }
      match s.userRepo.Update user with
      | some err => { err := some err, trace := [SvcOp.repoUpdate user] }
      | none => { err := none, trace := [SvcOp.repoUpdate user] }

/-- Recogniser of the UserDeleted variant. -/
def isUserDeletedEvent : DomainEvent → Bool
  | .userDeleted _ _ => true
  | _ => false

/-- Number of UserDeleted events in a buffer. -/
def countUserDeleted (events : List DomainEvent) : Nat :=
  (events.filter isUserDeletedEvent).length

/-!
Concrete fixtures used by witness and counterexample theorems. The repository
values below model particular backing-store states through the documented
repository contract (GetByID / GetByEmail / GetByUsername are active-only,
GetByIDIncludeDeleted is unscoped).
-/

/-- Handler that accepts every event and always fails. -/
def failingHandler : DomainEventHandler :=
  { CanHandle := fun _ => true
    Handle := fun _ => some "handler failed" }

/-- Dispatcher whose single registered handler always fails; no publisher. -/
def failDispatcher : DomainEventDispatcher :=
  { handlers := [failingHandler], publisher := none }

/-- Dispatcher with no handlers and no publisher. -/
def emptyDispatcher : DomainEventDispatcher :=
  { handlers := [], publisher := none }

/-- Buffer holding two events. -/
def twoEventRoot : AggregateRoot :=
  { domainEvents := [DomainEvent.userDeleted 1 2, DomainEvent.userDeleted 1 3] }

/-- An active (never deleted) user instance. -/
def activeUser : User :=
  NewUser 3 0 "dave@example.com" "dave" "Dave" "Doe"

/-- A soft-deleted user instance. -/
def deletedUser : User :=
  (NewUser 2 0 "bob@example.com" "bob" "Bob" "Stone").Delete 5

/-- A profile child entity, not deleted. -/
def someProfile : Profile :=
  { base := { ID := 10, CreatedAt := 0, UpdatedAt := 0, DeletedAt := none }
    UserID := 4
    Bio := "bio"
    Avatar := "avatar.png"
    DateOfBirth := none }

/-- A user that owns a profile child. -/
def userWithProfile : User :=
  { NewUser 4 0 "carol@example.com" "carol" "Carol" "Reed" with Profile := some someProfile }

/-- Repository over an empty store: every lookup misses, writes succeed. -/
def notFoundRepo : UserRepository :=
  { GetByEmail := fun _ => (none, some "user not found")
    GetByUsername := fun _ => (none, some "user not found")
    GetByID := fun _ => Except.error "user not found"
    GetByIDIncludeDeleted := fun _ => Except.error "user not found"
    Create := fun _ => none
    Update := fun _ => none }

/-- Service over an empty store whose dispatcher always fails. -/
def svcDispatchFails : UserAggregateService :=
  { userRepo := notFoundRepo, eventDispatcher := failDispatcher }

/-- Service whose id lookups return an active user and whose dispatcher always
fails; writes succeed. -/
def svcActiveUser : UserAggregateService :=
  { userRepo :=
      { notFoundRepo with
        GetByID := fun _ => Except.ok activeUser
        GetByIDIncludeDeleted := fun _ => Except.ok activeUser }
    eventDispatcher := failDispatcher }

/-- Service whose id lookups return an already-soft-deleted user. -/
def svcDeletedUser : UserAggregateService :=
  { userRepo :=
      { notFoundRepo with
        GetByID := fun _ => Except.ok deletedUser
        GetByIDIncludeDeleted := fun _ => Except.ok deletedUser }
    eventDispatcher := emptyDispatcher }

/-- Service over a store holding one soft-deleted record: the active-only
GetByID misses it (per the documented contract of the gorm implementation),
the unscoped GetByIDIncludeDeleted finds it. -/
def svcSoftDeletedRecord : UserAggregateService :=
  { userRepo :=
      { notFoundRepo with
        GetByIDIncludeDeleted := fun _ => Except.ok deletedUser }
    eventDispatcher := emptyDispatcher }

/-- Service whose persistence Create always fails. -/
def svcCreateFails : UserAggregateService :=
  { userRepo := { notFoundRepo with Create := fun _ => some "db down" }
    eventDispatcher := emptyDispatcher }

/-- Service whose uniqueness lookups fail with a transport error. -/
def svcLookupConnErr : UserAggregateService :=
  { userRepo :=
      { notFoundRepo with
        GetByEmail := fun _ => (none, some "connection refused")
        GetByUsername := fun _ => (none, some "connection refused") }
    eventDispatcher := emptyDispatcher }

/-- C1: with N >= 1 buffered events, a handler error during DispatchEvents is
returned as the result, the buffer still holds all N events (ClearDomainEvents
is not called) and the publisher's Publish is never invoked; and whenever the
call leaves the buffer empty, every matching handler call succeeded and the
configured publisher (if any) succeeded on the full batch. -/
theorem C1_handler_error_aborts_dispatch (d : DomainEventDispatcher) (ar : AggregateRoot)
    (hN : 1 ≤ ar.domainEvents.length) :
    (∀ err, handleEventsLocally d.handlers ar.DomainEvents = some err →
      d.DispatchEvents ar = (some err, ar, [])) ∧
    ((d.DispatchEvents ar).2.1.domainEvents = [] →
      handleEventsLocally d.handlers ar.DomainEvents = none ∧
      ∀ pub, d.publisher = some pub → pub ar.DomainEvents = none) := by
  have hne : ¬ ar.DomainEvents.length = 0 := by
    simp only [AggregateRoot.DomainEvents]
    omega
  constructor
  · intro err herr
    simp [DomainEventDispatcher.DispatchEvents, hne, herr]
  · intro hcleared
    cases hev : handleEventsLocally d.handlers ar.DomainEvents with
    | some err =>
      exfalso
      have hres : (d.DispatchEvents ar).2.1 = ar := by
        simp [DomainEventDispatcher.DispatchEvents, hne, hev]
      rw [hres] at hcleared
      exact hne (by simp [AggregateRoot.DomainEvents, hcleared])
    | none =>
      refine ⟨rfl, ?_⟩
      intro pub hpub
      cases hp : pub ar.DomainEvents with
      | some err =>
        exfalso
        have hres : (d.DispatchEvents ar).2.1 = ar := by
          simp [DomainEventDispatcher.DispatchEvents, hne, hev, hpub, hp]
        rw [hres] at hcleared
        exact hne (by simp [AggregateRoot.DomainEvents, hcleared])
      | none => rfl

/-- Witness for C1 at a concrete two-event buffer and a failing handler. -/
theorem C1_handler_error_aborts_dispatch_witness :
    (1 ≤ twoEventRoot.domainEvents.length ∧
      failDispatcher.DispatchEvents twoEventRoot = (some "handler failed", twoEventRoot, [])) ∧
    (failDispatcher.DispatchEvents twoEventRoot).2.1.domainEvents ≠ [] := by
  refine ⟨⟨by decide, ?_⟩, ?_⟩
  · exact (C1_handler_error_aborts_dispatch failDispatcher twoEventRoot (by decide)).1
      "handler failed" rfl
  · decide

/-- C2 counterexample: a concrete run of CreateUser in which the persistence
write succeeds (repoCreate is in the trace) and event dispatch fails with
"handler failed", yet the operation's returned error is nil: the dispatch
error is not surfaced to the caller. -/
theorem C2_dispatch_error_swallowed_cex :
    (svcDispatchFails.CreateUser 1 0 "alice@example.com" "alice" "Alice" "Lee").err = none ∧
    SvcOp.repoCreate (NewUser 1 0 "alice@example.com" "alice" "Alice" "Lee") ∈
      (svcDispatchFails.CreateUser 1 0 "alice@example.com" "alice" "Alice" "Lee").trace ∧
    (failDispatcher.DispatchEvents
      (NewUser 1 0 "alice@example.com" "alice" "Alice" "Lee").root).1 = some "handler failed" := by
  refine ⟨rfl, ?_, rfl⟩
  decide

/-- C2 amended: when the persistence write of CreateUser or SoftDeleteUser
succeeds, the operation returns a nil error regardless of the dispatcher (a
dispatch failure is logged and swallowed, not returned), and the committed
write remains in the effect trace (it is not rolled back). -/
theorem C2_dispatch_error_not_surfaced (s : UserAggregateService) (freshId now dnow uid : Nat)
    (email username firstName lastName : String) :
    (validateUserBusinessRules s.userRepo (NewUser freshId now email username firstName lastName) = none →
      s.userRepo.Create (NewUser freshId now email username firstName lastName) = none →
      (s.CreateUser freshId now email username firstName lastName).err = none ∧
      SvcOp.repoCreate (NewUser freshId now email username firstName lastName) ∈
        (s.CreateUser freshId now email username firstName lastName).trace) ∧
    (∀ user : User, s.userRepo.GetByID uid = Except.ok user →
      user.IsDeleted = false →
      s.userRepo.Update (user.Delete dnow) = none →
      (s.SoftDeleteUser dnow uid).err = none ∧
      SvcOp.repoUpdate (user.Delete dnow) ∈ (s.SoftDeleteUser dnow uid).trace) := by
  constructor
  · intro hval hcreate
    simp [UserAggregateService.CreateUser, hval, hcreate]
  · intro user hget hact hupd
    simp [UserAggregateService.SoftDeleteUser, hget, validateUserDeletionRules, hact, hupd]

/-- Witness for C2's amended claim: with a failing dispatcher, CreateUser over
an empty store and SoftDeleteUser of an active user both return a nil error
while keeping the committed write in the trace. -/
theorem C2_dispatch_error_not_surfaced_witness :
    ((svcDispatchFails.CreateUser 1 0 "alice@example.com" "alice" "Alice" "Lee").err = none ∧
      SvcOp.repoCreate (NewUser 1 0 "alice@example.com" "alice" "Alice" "Lee") ∈
        (svcDispatchFails.CreateUser 1 0 "alice@example.com" "alice" "Alice" "Lee").trace) ∧
    ((svcActiveUser.SoftDeleteUser 9 7).err = none ∧
      SvcOp.repoUpdate (activeUser.Delete 9) ∈ (svcActiveUser.SoftDeleteUser 9 7).trace) :=
  ⟨(C2_dispatch_error_not_surfaced svcDispatchFails 1 0 9 7
      "alice@example.com" "alice" "Alice" "Lee").1 rfl rfl,
   (C2_dispatch_error_not_surfaced svcActiveUser 1 0 9 7
      "alice@example.com" "alice" "Alice" "Lee").2 activeUser rfl (by decide) rfl⟩

/-- C3: evaluation at the failing input. The backing store holds exactly one
record for id 42 and that record is soft-deleted: the unscoped
GetByIDIncludeDeleted finds it, while the active-only GetByID (the lookup
SoftDeleteUser actually calls) reports "user not found". SoftDeleteUser
therefore surfaces the not-found error, even though the record exists and the
service's own deletion rule would have produced "user is already deleted" had
the aggregate been loaded. -/
theorem C3_soft_delete_uses_active_only_lookup :
    svcSoftDeletedRecord.SoftDeleteUser 9 42 = { err := some "user not found", trace := [] } ∧
    svcSoftDeletedRecord.userRepo.GetByIDIncludeDeleted 42 = Except.ok deletedUser ∧
    deletedUser.IsDeleted = true ∧
    validateUserDeletionRules deletedUser = some "user is already deleted" := by
  refine ⟨rfl, rfl, by decide, ?_⟩
  simp [validateUserDeletionRules, deletedUser]
  decide

/-- C4 counterexample: on one in-memory instance, Delete after Delete does not
fail (the entity-level methods have no error result) and appends a second
UserDeleted event: the buffer of a twice-deleted fresh user holds two
UserDeleted events, and the second call overwrote DeletedAt. -/
theorem C4_second_delete_appends_again_cex :
    ((NewUser 1 0 "alice@example.com" "alice" "Alice" "Lee").Delete 5).IsDeleted = true ∧
    countUserDeleted
      (((NewUser 1 0 "alice@example.com" "alice" "Alice" "Lee").Delete 5).Delete 9).root.domainEvents = 2 ∧
    (((NewUser 1 0 "alice@example.com" "alice" "Alice" "Lee").Delete 5).Delete 9).base.DeletedAt = some 9 := by
  refine ⟨by decide, by decide, rfl⟩

/-- C4 amended: entity-level SoftDelete and Delete are unconditional — a second
Delete on the same instance appends a second UserDeleted event and resets
DeletedAt — and the AlreadyDeletedError rule is enforced one layer up: the
service's validateUserDeletionRules rejects an already-deleted user with
"user is already deleted", so SoftDeleteUser, when the repository hands it a
deleted aggregate, fails with that error and performs no write and no
dispatch. -/
theorem C4_delete_check_lives_in_service (u : User) (n1 n2 : Nat) :
    countUserDeleted ((u.Delete n1).Delete n2).root.domainEvents
      = countUserDeleted u.root.domainEvents + 2 ∧
    ((u.Delete n1).Delete n2).base.DeletedAt = some n2 ∧
    (∀ v : User, v.IsDeleted = true →
      validateUserDeletionRules v = some "user is already deleted") ∧
    (∀ (s : UserAggregateService) (uid dn : Nat) (v : User),
      s.userRepo.GetByID uid = Except.ok v → v.IsDeleted = true →
      s.SoftDeleteUser dn uid = { err := some "user is already deleted", trace := [] }) := by
  refine ⟨?_, rfl, ?_, ?_⟩
  · simp [User.Delete, User.SoftDelete, User.AddDomainEvent, AggregateRoot.AddDomainEvent,
      countUserDeleted, List.filter_append, isUserDeletedEvent]
  · intro v hv
    simp [validateUserDeletionRules, hv]
  · intro s uid dn v hget hv
    simp [UserAggregateService.SoftDeleteUser, hget, validateUserDeletionRules, hv]

/-- Witness for C4's amended claim at a concrete user and a service whose
repository returns an already-deleted aggregate. -/
theorem C4_delete_check_lives_in_service_witness :
    countUserDeleted
        (((NewUser 2 0 "bob@example.com" "bob" "Bob" "Stone").Delete 1).Delete 2).root.domainEvents
      = countUserDeleted (NewUser 2 0 "bob@example.com" "bob" "Bob" "Stone").root.domainEvents + 2 ∧
    svcDeletedUser.SoftDeleteUser 9 7 = { err := some "user is already deleted", trace := [] } :=
  ⟨(C4_delete_check_lives_in_service (NewUser 2 0 "bob@example.com" "bob" "Bob" "Stone") 1 2).1,
   (C4_delete_check_lives_in_service (NewUser 2 0 "bob@example.com" "bob" "Bob" "Stone") 1 2).2.2.2
     svcDeletedUser 7 9 deletedUser rfl (by decide)⟩

/-- C5: RestoreUser on an aggregate whose lifecycle state is Active (DeletedAt
none) fails with the business error "user is not deleted" and leaves everything
untouched: the effect trace is empty, so no persistence write and no dispatch
occur, and the in-memory aggregate is never mutated (the error is raised before
Restore is applied). -/
theorem C5_restore_active_fails_unchanged (s : UserAggregateService) (uid : Nat) (user : User)
    (hget : s.userRepo.GetByIDIncludeDeleted uid = Except.ok user)
    (hact : user.IsDeleted = false) :
    s.RestoreUser uid = { err := some "user is not deleted", trace := [] } := by
  simp [UserAggregateService.RestoreUser, hget, hact]

/-- Witness for C5 at a service whose repository returns a never-deleted user. -/
theorem C5_restore_active_fails_unchanged_witness :
    svcActiveUser.RestoreUser 7 = { err := some "user is not deleted", trace := [] } :=
  C5_restore_active_fails_unchanged svcActiveUser 7 activeUser rfl (by decide)

/-- C6: NewUser returns an aggregate carrying the given fresh identifier, in
the Active lifecycle state (IsDeleted false, DeletedAt none, IsActive true),
with exactly one UserCreated event in its buffer. NewUser takes no repository
and records no persistence effect: it cannot touch the persistence layer. -/
theorem C6_new_user_active_one_created_event (freshId now : Nat)
    (email username firstName lastName : String) :
    (NewUser freshId now email username firstName lastName).base.ID = freshId ∧
    (NewUser freshId now email username firstName lastName).IsDeleted = false ∧
    (NewUser freshId now email username firstName lastName).base.DeletedAt = none ∧
    (NewUser freshId now email username firstName lastName).IsActive = true ∧
    (NewUser freshId now email username firstName lastName).root.domainEvents
      = [DomainEvent.userCreated freshId email username now] :=
  ⟨rfl, rfl, rfl, rfl, rfl⟩

/-- C7: evaluation at the failing input. Deleting a user that owns a profile
marks the parent deleted but leaves the owned Profile child exactly as it was:
still attached, with DeletedAt nil (not soft-deleted). The repository's own
pattern documentation shows Delete() cascading SoftDelete to the profile; the
code does not. -/
theorem C7_delete_does_not_cascade_to_profile :
    (userWithProfile.Delete 5).base.DeletedAt = some 5 ∧
    (userWithProfile.Delete 5).Profile = some someProfile ∧
    someProfile.base.IsDeleted = false := by
  refine ⟨rfl, rfl, by decide⟩

/-- C8: in CreateUser, dispatch never precedes a successful persist. When the
persistence Create fails after validation, the operation returns that error,
returns no user, and its effect trace is exactly the failed write — no event
batch is ever handed to the dispatcher. Conversely, any dispatch effect in the
trace implies Create succeeded, and then the trace is exactly the write
followed by the dispatch of the aggregate's buffer, in that order. -/
theorem C8_persist_before_dispatch (s : UserAggregateService) (freshId now : Nat)
    (email username firstName lastName : String) :
    (validateUserBusinessRules s.userRepo (NewUser freshId now email username firstName lastName) = none →
      ∀ err, s.userRepo.Create (NewUser freshId now email username firstName lastName) = some err →
        s.CreateUser freshId now email username firstName lastName =
          { val := none, err := some err,
            trace := [SvcOp.repoCreate (NewUser freshId now email username firstName lastName)] }) ∧
    (∀ evs, SvcOp.dispatch evs ∈ (s.CreateUser freshId now email username firstName lastName).trace →
      s.userRepo.Create (NewUser freshId now email username firstName lastName) = none ∧
      (s.CreateUser freshId now email username firstName lastName).trace =
        [SvcOp.repoCreate (NewUser freshId now email username firstName lastName),
         SvcOp.dispatch (NewUser freshId now email username firstName lastName).root.domainEvents]) := by
  constructor
  · intro hval err hcreate
    simp [UserAggregateService.CreateUser, hval, hcreate]
  · intro evs hmem
    cases hval : validateUserBusinessRules s.userRepo
        (NewUser freshId now email username firstName lastName) with
    | some err =>
      exfalso
      simp [UserAggregateService.CreateUser, hval] at hmem
    | none =>
      cases hcreate : s.userRepo.Create (NewUser freshId now email username firstName lastName) with
      | some err =>
        exfalso
        simp [UserAggregateService.CreateUser, hval, hcreate] at hmem
      | none =>
        exact ⟨rfl, by simp [UserAggregateService.CreateUser, hval, hcreate]⟩

/-- Witness for C8: a service whose Create fails returns the error with no
dispatch in its trace, and a service whose Create succeeds has the
persist-then-dispatch trace. -/
theorem C8_persist_before_dispatch_witness :
    svcCreateFails.CreateUser 1 0 "alice@example.com" "alice" "Alice" "Lee" =
      { val := none, err := some "db down",
        trace := [SvcOp.repoCreate (NewUser 1 0 "alice@example.com" "alice" "Alice" "Lee")] } ∧
    (svcDispatchFails.CreateUser 1 0 "alice@example.com" "alice" "Alice" "Lee").trace =
      [SvcOp.repoCreate (NewUser 1 0 "alice@example.com" "alice" "Alice" "Lee"),
       SvcOp.dispatch (NewUser 1 0 "alice@example.com" "alice" "Alice" "Lee").root.domainEvents] :=
  ⟨(C8_persist_before_dispatch svcCreateFails 1 0
      "alice@example.com" "alice" "Alice" "Lee").1 rfl "db down" rfl,
   ((C8_persist_before_dispatch svcDispatchFails 1 0
      "alice@example.com" "alice" "Alice" "Lee").2
      (NewUser 1 0 "alice@example.com" "alice" "Alice" "Lee").root.domainEvents
      (by decide)).2⟩

/-- C9: on an instance whose lifecycle state is Active, Delete followed by
Restore yields an instance for which IsDeleted is false. -/
theorem C9_delete_restore_roundtrip (u : User) (now : Nat) (h : u.IsDeleted = false) :
    ((u.Delete now).Restore).IsDeleted = false := by
  simp [User.Delete, User.SoftDelete, User.AddDomainEvent, User.Restore,
    BaseEntity.SoftDelete, BaseEntity.Restore, User.IsDeleted, BaseEntity.IsDeleted]

/-- Witness for C9 at a concrete active user. -/
theorem C9_delete_restore_roundtrip_witness :
    ((activeUser.Delete 5).Restore).IsDeleted = false :=
  C9_delete_restore_roundtrip activeUser 5 (by decide)

/-- C10: in CreateUser's uniqueness validation a duplicate is reported only
when the lookup returns a non-nil user together with a nil error; whenever
GetByEmail and GetByUsername return any error at all — a transport failure as
much as not-found — both uniqueness checks pass and creation proceeds to the
persistence write, so a failing lookup can mask an existing duplicate. -/
theorem C10_lookup_error_skips_uniqueness_check (s : UserAggregateService) (freshId now : Nat)
    (email username firstName lastName : String) :
    ((s.userRepo.GetByEmail (NewUser freshId now email username firstName lastName).Email).2 ≠ none →
      (s.userRepo.GetByUsername (NewUser freshId now email username firstName lastName).Username).2 ≠ none →
      validateUserBusinessRules s.userRepo (NewUser freshId now email username firstName lastName) = none ∧
      SvcOp.repoCreate (NewUser freshId now email username firstName lastName) ∈
        (s.CreateUser freshId now email username firstName lastName).trace) ∧
    (validateUserBusinessRules s.userRepo (NewUser freshId now email username firstName lastName)
        = some "email already exists" →
      ∃ w, s.userRepo.GetByEmail (NewUser freshId now email username firstName lastName).Email
        = (some w, none)) ∧
    (validateUserBusinessRules s.userRepo (NewUser freshId now email username firstName lastName)
        = some "username already exists" →
      ∃ w, s.userRepo.GetByUsername (NewUser freshId now email username firstName lastName).Username
        = (some w, none)) := by
  rcases hE : s.userRepo.GetByEmail (NewUser freshId now email username firstName lastName).Email
    with ⟨eu, ee⟩
  rcases hU : s.userRepo.GetByUsername (NewUser freshId now email username firstName lastName).Username
    with ⟨uu, ue⟩
  have hval : validateUserBusinessRules s.userRepo
      (NewUser freshId now email username firstName lastName)
      = match (eu, ee) with
        | (some _, none) => some "email already exists"
        | _ =>
          match (uu, ue) with
          | (some _, none) => some "username already exists"
          | _ => none := by
    simp [validateUserBusinessRules, hE, hU]
  constructor
  · intro hee hue
    have hvnone : validateUserBusinessRules s.userRepo
        (NewUser freshId now email username firstName lastName) = none := by
      rw [hval]
      cases eu <;> cases ee <;> cases uu <;> cases ue <;> simp_all
    refine ⟨hvnone, ?_⟩
    cases hcreate : s.userRepo.Create (NewUser freshId now email username firstName lastName) with
    | some err => simp [UserAggregateService.CreateUser, hvnone, hcreate]
    | none => simp [UserAggregateService.CreateUser, hvnone, hcreate]
  · constructor
    · intro hdup
      rw [hval] at hdup
      cases eu <;> cases ee <;> cases uu <;> cases ue <;> simp_all
    · intro hdup
      rw [hval] at hdup
      cases eu <;> cases ee <;> cases uu <;> cases ue <;> simp_all

/-- Witness for C10: a store whose uniqueness lookups fail with a transport
error lets CreateUser proceed to the persistence write. -/
theorem C10_lookup_error_skips_uniqueness_check_witness :
    validateUserBusinessRules svcLookupConnErr.userRepo
      (NewUser 1 0 "alice@example.com" "alice" "Alice" "Lee") = none ∧
    SvcOp.repoCreate (NewUser 1 0 "alice@example.com" "alice" "Alice" "Lee") ∈
      (svcLookupConnErr.CreateUser 1 0 "alice@example.com" "alice" "Alice" "Lee").trace :=
  (C10_lookup_error_skips_uniqueness_check svcLookupConnErr 1 0
    "alice@example.com" "alice" "Alice" "Lee").1 (by decide) (by decide)
